import Mathlib

/-!
Shallow embedding of the assistant adapter in this repository: the retry
context manager and OpenAIAssistantImpl from
src/implementations/openai_provider.py, the provider facade from
src/processor_2.py, and the test facade from src/test_lib.py.

Modelling conventions: a raised Python exception is an Except.error carrying
the message text; remote calls are made explicit by passing the responses the
service would return as arguments (a finite list of poll responses stands for
a finite prefix of the poll stream); the class-level registry dict that
src/test_lib.py mutates in place is threaded through as explicit state.
-/

namespace Adapter

/-- A thread message: only the role and the content fields are ever inspected
by the adapter code in src/implementations/openai_provider.py. -/
structure Message where
  role : String
  content : String
deriving DecidableEq, Repr

/-- Embeds OpenAIAssistantImpl._try_get_latest_assistant_message applied to
the message list returned by the service. The Python code: if messages.data
is truthy, take next(msg for msg in messages.data if msg.role == "assistant")
and return it when found; every other path falls through to the raise. -/
def tryGetLatestAssistantMessage (data : List Message) : Except String Message :=
  if data ≠ [] then
    match List.find? (fun msg => msg.role == "assistant") data with
    | some assistant_message => Except.ok assistant_message
    | none => Except.error "No assistant message found, retrying..."
  else
    Except.error "No assistant message found, retrying..."

/-- Outcome of resuming the retry_manager async generator: it suspends at a
yield, returns, or raises. -/
inductive GenEvent where
  | yielded (retries : Nat)
  | returned
  | raised (msg : String)
deriving DecidableEq, Repr

/-- First resumption of the retry_manager generator (what __aenter__ runs):
with retries = 0, the while guard retries < max_retries either reaches the
yield or falls off the end of the generator. -/
def retry_manager_start (max_retries : Nat) : GenEvent :=
  if 0 < max_retries then GenEvent.yielded 0 else GenEvent.returned

/-- Resuming the generator normally after its yield (what __aexit__ runs when
the with-body succeeded): the statement after the yield is a plain return. -/
def retry_manager_resume : GenEvent := GenEvent.returned

/-- Throwing an exception into the generator at its yield (what __aexit__ runs
via athrow when the with-body raised): the except block runs retries += 1; if
retries < max_retries it prints, sleeps, loops back to the while guard and
yields again; otherwise it raises the wrapping Exception. -/
def retry_manager_throw (max_retries retries : Nat) : GenEvent :=
  let r := retries + 1
  if r < max_retries then GenEvent.yielded r
  else GenEvent.raised ("Operation failed after " ++ toString max_retries ++ " retries")

/-- Result of running a with-statement over retry_manager: the body value, a
propagating exception, or a suppressed exception (control continues after the
block with no value). -/
inductive WithRetryOutcome (α : Type) where
  | success (a : α)
  | pyError (msg : String)
  | fellThrough
deriving DecidableEq, Repr

/-- Embeds the statement async with retry_manager(max_retries): body, under
the CPython contextmanager protocol. __aenter__ runs the generator to its
first suspension; the body runs at most once; on a body exception __aexit__
throws it into the generator, and if the generator yields again instead of
stopping, __aexit__ raises a RuntimeError (this is why the wrapper never
actually retries). The second component counts how many times the wrapped
operation ran; op is indexed by the attempt number it would be run at. -/
def with_retry {α : Type} (op : Nat → Except String α) (max_retries : Nat) :
    WithRetryOutcome α × Nat :=
  match retry_manager_start max_retries with
  | GenEvent.returned => (WithRetryOutcome.pyError "RuntimeError: generator did not yield", 0)
  | GenEvent.raised m => (WithRetryOutcome.pyError m, 0)
  | GenEvent.yielded k =>
    match op k with
    | Except.ok a =>
      match retry_manager_resume with
      | GenEvent.returned => (WithRetryOutcome.success a, 1)
      | GenEvent.yielded _ => (WithRetryOutcome.pyError "RuntimeError: generator did not stop", 1)
      | GenEvent.raised m => (WithRetryOutcome.pyError m, 1)
    | Except.error _ =>
      match retry_manager_throw max_retries k with
      | GenEvent.yielded _ =>
        (WithRetryOutcome.pyError "RuntimeError: generator did not stop after athrow", 1)
      | GenEvent.raised m => (WithRetryOutcome.pyError m, 1)
      | GenEvent.returned => (WithRetryOutcome.fellThrough, 1)

/-- Embeds OpenAIAssistantImpl.get_assistant_response: run the with-statement
over retry_manager with the fetch operation as body; any exception is caught
by the outer try and turned into None; if the exception were suppressed,
control would fall off the end of the function, which also returns None.
The second component is the number of times the fetch operation ran. -/
def get_assistant_response (op : Nat → Except String Message) (max_retries : Nat) :
    Option Message × Nat :=
  match with_retry op max_retries with
  | (WithRetryOutcome.success m, n) => (some m, n)
  | (WithRetryOutcome.pyError _, n) => (none, n)
  | (WithRetryOutcome.fellThrough, n) => (none, n)

/-- A pending tool call as read off the run object: id, function name and the
raw arguments text. -/
structure ToolCall where
  id : String
  name : String
  arguments : String
deriving DecidableEq, Repr

/-- One entry of the tool_outputs list built by submit_tool_outputs. -/
structure ToolOutput where
  tool_call_id : String
  output : String
deriving DecidableEq, Repr

/-- The caller-supplied function registry: function name to callable from the
raw arguments text to a textual result. -/
def FunctionRegistry : Type := List (String × (String → String))

/-- Modelled from the spec: the body of execute_function_call in
src/implementations/openai_provider.py is a stub (pass) and only its docstring
and section 4.2 of the spec describe the dispatcher. Look the name up in the
function registry; if absent, produce a textual error result and never raise;
if present, invoke the function on the arguments and return its result as
text. -/
def execute_function_call (registry : FunctionRegistry) (function_name : String)
    (arguments : String) : String :=
  match List.lookup function_name (registry : List (String × (String → String))) with
  | none => "Error: function " ++ function_name ++ " not found"
  | some f => f arguments

/-- The tool_outputs list built by the for-loop in submit_tool_outputs: one
entry appended per tool call, in input order, carrying that tool call id and
the str() of the dispatcher result. -/
def built_tool_outputs (registry : FunctionRegistry) (tool_calls : List ToolCall) :
    List ToolOutput :=
  tool_calls.map (fun tool_call =>
    { tool_call_id := tool_call.id
      output := execute_function_call registry tool_call.name tool_call.arguments })

/-- The value bound to the thread parameter of submit_tool_outputs at runtime:
either an actual Thread object carrying an id attribute, or a plain str (which
is what start_run actually passes). -/
inductive ThreadArg where
  | threadObj (id : String)
  | strArg (s : String)
deriving DecidableEq, Repr

/-- The attribute access thread.id: succeeds on a Thread object and raises
AttributeError on a plain str. -/
def ThreadArg.getId : ThreadArg → Except String String
  | ThreadArg.threadObj i => Except.ok i
  | ThreadArg.strArg _ => Except.error "AttributeError: str object has no attribute id"

/-- Remote run status as polled by start_run. -/
inductive RunStatus where
  | queued
  | in_progress
  | requires_action
  | completed
  | failed
  | expired
deriving DecidableEq, Repr

/-- A run object as observed by the poller: its status and, when the status is
requires_action, the pending tool calls under required_action. -/
structure RunState where
  status : RunStatus
  tool_calls : List ToolCall
deriving DecidableEq, Repr

/-- Embeds OpenAIAssistantImpl.submit_tool_outputs: build the full
tool_outputs list first (one entry per tool call, in order), then call the
service with thread_id = thread.id; the attribute access raises on a plain
str. On success the payload handed to the service is the whole built list; the
updated run the service returns is discarded by the only caller, so the model
returns the submitted batch. -/
def submit_tool_outputs (registry : FunctionRegistry) (_run : RunState)
    (thread : ThreadArg) (tool_calls : List ToolCall) : Except String (List ToolOutput) :=
  let tool_outputs := built_tool_outputs registry tool_calls
  match thread.getId with
  | Except.error e => Except.error e
  | Except.ok _ => Except.ok tool_outputs

/-- Result of start_run over a finite prefix of the poll stream: the returned
completed run, None (an exception was caught by the try block), or the loop is
still polling when the supplied prefix runs out. -/
inductive StartRunResult where
  | completedRun (r : RunState)
  | noneResult (err : String)
  | stillPolling
deriving DecidableEq, Repr

/-- Embeds the while loop of OpenAIAssistantImpl.start_run. The loop runs
while run.status is not completed; each iteration retrieves the next run
state, and if its status is requires_action it calls submit_tool_outputs with
the plain str thread_id in the thread position (the source call site carries a
type: ignore comment); an exception propagates to the enclosing try, which
returns None. The second component collects the batches actually handed to the
service. -/
def start_run_loop (registry : FunctionRegistry) (thread_id : String) :
    RunState → List RunState → List (List ToolOutput) →
    StartRunResult × List (List ToolOutput)
  | run, [], submitted =>
    if run.status = RunStatus.completed then (StartRunResult.completedRun run, submitted)
    else (StartRunResult.stillPolling, submitted)
  | run, r :: rest, submitted =>
    if run.status = RunStatus.completed then (StartRunResult.completedRun run, submitted)
    else
      if r.status = RunStatus.requires_action then
        match submit_tool_outputs registry r (ThreadArg.strArg thread_id) r.tool_calls with
        | Except.error e => (StartRunResult.noneResult e, submitted)
        | Except.ok batch => start_run_loop registry thread_id r rest (submitted ++ [batch])
      else
        start_run_loop registry thread_id r rest submitted

/-- Embeds OpenAIAssistantImpl.start_run: the service creates the run in state
created, and polls is the finite prefix of the states the retrieve calls would
return. -/
def start_run (registry : FunctionRegistry) (thread_id : String) (created : RunState)
    (polls : List RunState) : StartRunResult × List (List ToolOutput) :=
  start_run_loop registry thread_id created polls []

/-- Embeds OpenAIAssistantImpl.create_message: createResult is the outcome of
the remote message creation; if it succeeded, start_run is awaited and its
result discarded, and the created message is returned; any exception is caught
and turned into None. -/
def create_message (createResult : Except String Message) (registry : FunctionRegistry)
    (thread_id : String) (created_run : RunState) (polls : List RunState) : Option Message :=
  match createResult with
  | Except.error _ => none
  | Except.ok message =>
    let _run := start_run registry thread_id created_run polls
    some message

/-- Embeds OpenAIAssistantImpl.get_thread_messages: listResult is the outcome
of the remote list call; on an exception return None; on success return the
data when it is truthy, and None when the list is empty. -/
def get_thread_messages (listResult : Except String (List Message)) :
    Option (List Message) :=
  match listResult with
  | Except.error _ => none
  | Except.ok data => if data ≠ [] then some data else none

/-- Tag standing for a concrete implementation class in a provider registry
(instantiating the class is modelled as returning its tag). -/
inductive ImplTag where
  | openAIAssistantImpl
  | assistantTestImpl
  | customImpl (idx : Nat)
deriving DecidableEq, Repr

/-- The module-level registry of src/processor_2.py: it maps the provider name
openai to OpenAIAssistantImpl and is never written after construction. -/
def processor_implementations : List (String × ImplTag) :=
  [("openai", ImplTag.openAIAssistantImpl)]

/-- Embeds get_assistant_processor of src/processor_2.py: if the provider is
not a key of the registry, raise KeyError with the given message (the
misspelling AssistanProcessor is in the source); otherwise instantiate the
registered class. -/
def get_assistant_processor (provider : String) : Except String ImplTag :=
  match List.lookup provider processor_implementations with
  | none =>
    Except.error ("AssistanProcessor for Provider: " ++ provider ++ " is not implemented.")
  | some impl => Except.ok impl

/-- One Python dict assignment d[k] = v on an association list read through
List.lookup: the new binding shadows every older binding of k, so lookups
agree with the mutated dict. -/
def dictSet (d : List (String × ImplTag)) (k : String) (v : ImplTag) :
    List (String × ImplTag) :=
  (k, v) :: d

/-- Python d.update(new): assign every pair of new into d in order. -/
def dictUpdate (d new : List (String × ImplTag)) : List (String × ImplTag) :=
  new.foldl (fun acc kv => dictSet acc kv.1 kv.2) d

/-- The shared class-level registry dict of src/test_lib.py, threaded as
explicit state because AssistantProcessor.__init__ mutates it in place. -/
structure TestLibState where
  registry : List (String × ImplTag)
deriving DecidableEq, Repr

/-- Initial contents of the test_lib registry dict. -/
def assistant_processor_implementations : List (String × ImplTag) :=
  [("openai", ImplTag.assistantTestImpl)]

/-- Embeds AssistantProcessor.__init__ of src/test_lib.py: first
self.assistant_processor_implementations.update(custom_processors or \x7b\x7d)
mutates the shared class-level dict, then the provider is looked up in the
updated dict and instantiated; a missing provider raises KeyError after the
dict was already mutated. custom_processors = None is passed as []. -/
def assistantProcessorInit (st : TestLibState) (provider : String)
    (custom : List (String × ImplTag)) : TestLibState × Except String ImplTag :=
  let reg := dictUpdate st.registry custom
  (⟨reg⟩,
    match List.lookup provider reg with
    | some t => Except.ok t
    | none => Except.error ("KeyError: " ++ provider))

/-- Helper: find? for the assistant role skips a prefix with no assistant
message and stops at the first assistant message. -/
theorem find_first_assistant (m : Message) (post : List Message) (hm : m.role = "assistant") :
    ∀ pre : List Message, (∀ x ∈ pre, x.role ≠ "assistant") →
      List.find? (fun msg => msg.role == "assistant") (pre ++ m :: post) = some m := by
  intro pre
  induction pre with
  | nil =>
    intro _
    rw [List.nil_append, List.find?_cons_of_pos]
    simp [hm]
  | cons x xs ih =>
    intro h
    have hx : x.role ≠ "assistant" := h x (List.mem_cons_self x xs)
    rw [List.cons_append, List.find?_cons_of_neg]
    · exact ih (fun y hy => h y (List.mem_cons_of_mem x hy))
    · simp [hx]

/-- Helper: as long as no polled state is completed and none is
requires_action, the start_run loop consumes the whole poll prefix and is
still polling, having submitted nothing. -/
theorem start_run_loop_keeps_polling (registry : FunctionRegistry) (tid : String) :
    ∀ (polls : List RunState) (run : RunState) (submitted : List (List ToolOutput)),
      run.status ≠ RunStatus.completed →
      (∀ r ∈ polls, r.status ≠ RunStatus.completed ∧ r.status ≠ RunStatus.requires_action) →
      start_run_loop registry tid run polls submitted
        = (StartRunResult.stillPolling, submitted) := by
  intro polls
  induction polls with
  | nil =>
    intro run submitted hrun _
    simp [start_run_loop, hrun]
  | cons r rest ih =>
    intro run submitted hrun hall
    have hr := hall r (List.mem_cons_self r rest)
    simp only [start_run_loop, if_neg hrun, if_neg hr.2]
    exact ih r submitted hr.1 (fun x hx => hall x (List.mem_cons_of_mem r hx))

/-- C1: the claim says get_assistant_response with max_retries = N makes up to
N attempts and, when every attempt fails, exactly N attempts before a terminal
failure wrapping the last error. On the code, with max_retries = 2 and an
always-failing operation, the wrapped operation runs exactly once: the
retry_manager generator yields a second time while the exception is being
thrown into it, so the context-manager protocol raises a RuntimeError and
get_assistant_response returns None after a single attempt. -/
theorem with_retry_failing_op_trace :
    with_retry (fun _ => (Except.error "boom" : Except String Message)) 2
      = (WithRetryOutcome.pyError "RuntimeError: generator did not stop after athrow", 1)
  ∧ get_assistant_response (fun _ => Except.error "boom") 2 = (none, 1) :=
  ⟨rfl, rfl⟩

/-- C2: for every tool-call batch of size K, submit_tool_outputs builds
exactly K output entries, one per tool call, in input order, each carrying
that tool call id, and (when the thread argument is an actual Thread object)
the batch handed to the service is exactly that fully built list — for every
registry, including ones where lookups fail. -/
theorem submit_tool_outputs_one_output_per_call :
    ∀ (registry : FunctionRegistry) (run : RunState) (tid : String)
      (tool_calls : List ToolCall),
      (built_tool_outputs registry tool_calls).length = tool_calls.length
    ∧ (built_tool_outputs registry tool_calls).map (fun o => o.tool_call_id)
        = tool_calls.map (fun tc => tc.id)
    ∧ submit_tool_outputs registry run (ThreadArg.threadObj tid) tool_calls
        = Except.ok (built_tool_outputs registry tool_calls) := by
  intro registry run tid tool_calls
  refine ⟨?_, ?_, rfl⟩
  · simp [built_tool_outputs]
  · simp [built_tool_outputs]

/-- C3: dispatching a function name absent from the function registry
(including the empty registry) returns a textual error result rather than
raising: the result is the error string naming the missing function. -/
theorem execute_function_call_absent_error_text :
    ∀ (registry : FunctionRegistry) (fn args : String),
      List.lookup fn (registry : List (String × (String → String))) = none →
      execute_function_call registry fn args = "Error: function " ++ fn ++ " not found" := by
  intro registry fn args h
  unfold execute_function_call
  rw [h]

/-- Witness for C3: the empty registry and the name missing_fn satisfy the
hypothesis, and the dispatch yields the error string. -/
theorem execute_function_call_absent_error_text_witness :
    List.lookup "missing_fn" ([] : List (String × (String → String))) = none
  ∧ execute_function_call ([] : FunctionRegistry) "missing_fn" ""
      = "Error: function missing_fn not found" :=
  ⟨rfl, execute_function_call_absent_error_text ([] : FunctionRegistry) "missing_fn" "" rfl⟩

/-- C4: the claim says that on the status sequence queued, in_progress,
requires_action (one pending tool call), in_progress, completed, start_run
submits exactly one batch of size one and returns the completed run. On the
code, start_run passes the plain str thread_id where submit_tool_outputs
expects a Thread, the attribute access thread.id raises AttributeError, the
enclosing try catches it, and start_run returns None with no batch submitted
to the service. -/
theorem start_run_scenario_trace :
    start_run [] "thread_1" { status := RunStatus.queued, tool_calls := [] }
      [ { status := RunStatus.in_progress, tool_calls := [] },
        { status := RunStatus.requires_action,
          tool_calls := [{ id := "call_1", name := "add", arguments := "" }] },
        { status := RunStatus.in_progress, tool_calls := [] },
        { status := RunStatus.completed, tool_calls := [] } ]
      = (StartRunResult.noneResult "AttributeError: str object has no attribute id", []) := by
  rfl

/-- C5: the claim says start_run never returns unless completed is observed.
On sequences that avoid both completed and requires_action (for example a run
that reports failed forever) the loop indeed never exits: every finite poll
prefix leaves it still polling. But a requires_action poll without any
completed makes start_run return None (the AttributeError raised inside
submit_tool_outputs is caught), so the loop can also end without ever
observing completed. -/
theorem start_run_never_completed_trace :
    (∀ k : Nat,
      (start_run [] "thread_1" { status := RunStatus.queued, tool_calls := [] }
        (List.replicate k { status := RunStatus.failed, tool_calls := [] })).1
        = StartRunResult.stillPolling)
  ∧ (start_run [] "thread_1" { status := RunStatus.queued, tool_calls := [] }
      [{ status := RunStatus.requires_action,
         tool_calls := [{ id := "call_1", name := "add", arguments := "" }] }]).1
      ≠ StartRunResult.stillPolling := by
  constructor
  · intro k
    have h := start_run_loop_keeps_polling [] "thread_1"
      (List.replicate k { status := RunStatus.failed, tool_calls := [] })
      { status := RunStatus.queued, tool_calls := [] } []
      (by decide)
      (fun r hr => by
        have hre := List.eq_of_mem_replicate hr
        subst hre
        exact ⟨by decide, by decide⟩)
    unfold start_run
    rw [h]
  · decide

/-- C6: the message lookup returns the first message, in the order the service
returned the list, whose role is assistant; when no listed message has the
assistant role (including the empty list) it fails with the not-found error
that the retry wrapper retries on. -/
theorem latest_assistant_message_first_in_order :
    (∀ (pre post : List Message) (m : Message),
        (∀ x ∈ pre, x.role ≠ "assistant") → m.role = "assistant" →
        tryGetLatestAssistantMessage (pre ++ m :: post) = Except.ok m)
  ∧ (∀ data : List Message, (∀ x ∈ data, x.role ≠ "assistant") →
        tryGetLatestAssistantMessage data
          = Except.error "No assistant message found, retrying...") := by
  constructor
  · intro pre post m hpre hm
    have hne : pre ++ m :: post ≠ [] := by simp
    unfold tryGetLatestAssistantMessage
    rw [if_pos hne, find_first_assistant m post hm pre hpre]
  · intro data hall
    have hfind : List.find? (fun msg => msg.role == "assistant") data = none := by
      rw [List.find?_eq_none]
      intro x hx
      simp [hall x hx]
    cases data with
    | nil => rfl
    | cons a l =>
      unfold tryGetLatestAssistantMessage
      rw [if_pos (by simp : (a :: l : List Message) ≠ []), hfind]

/-- Witness for C6: with a user message before and an older assistant message
after, the newer assistant message is selected; with only a user message the
not-found error is produced. -/
theorem latest_assistant_message_first_in_order_witness :
    tryGetLatestAssistantMessage
        [{ role := "user", content := "hi" }, { role := "assistant", content := "yo" },
         { role := "assistant", content := "older" }]
      = Except.ok { role := "assistant", content := "yo" }
  ∧ tryGetLatestAssistantMessage [{ role := "user", content := "hi" }]
      = Except.error "No assistant message found, retrying..." :=
  ⟨latest_assistant_message_first_in_order.1 [{ role := "user", content := "hi" }]
      [{ role := "assistant", content := "older" }] { role := "assistant", content := "yo" }
      (by
        intro x hx
        rw [List.mem_singleton] at hx
        subst hx
        decide)
      rfl,
   latest_assistant_message_first_in_order.2 [{ role := "user", content := "hi" }]
      (by
        intro x hx
        rw [List.mem_singleton] at hx
        subst hx
        decide)⟩

/-- C7 counterexample: the claim says resolving an unknown provider reports
a failure without raising an unhandled exception to the caller. On the code,
get_assistant_processor with the unknown provider anthropic raises a KeyError
(modelled as Except.error) carrying the not-implemented message, and nothing
catches it. -/
theorem get_assistant_processor_unknown_raises :
    List.lookup "anthropic" processor_implementations = none
  ∧ get_assistant_processor "anthropic"
      = Except.error "AssistanProcessor for Provider: anthropic is not implemented." :=
  ⟨rfl, rfl⟩

/-- C7 amended: for every provider name absent from the implementation
registry, get_assistant_processor raises a KeyError whose message states that
the provider is not implemented; the documented exception is the failure
signal, and no instance is returned. -/
theorem get_assistant_processor_unknown_keyerror_text :
    ∀ provider : String,
      List.lookup provider processor_implementations = none →
      get_assistant_processor provider
        = Except.error
            ("AssistanProcessor for Provider: " ++ provider ++ " is not implemented.") := by
  intro provider h
  unfold get_assistant_processor
  rw [h]

/-- Witness for the amended C7: bedrock is not a registered provider and the
lookup raises the KeyError with the not-implemented text. -/
theorem get_assistant_processor_unknown_keyerror_text_witness :
    List.lookup "bedrock" processor_implementations = none
  ∧ get_assistant_processor "bedrock"
      = Except.error "AssistanProcessor for Provider: bedrock is not implemented." :=
  ⟨rfl, get_assistant_processor_unknown_keyerror_text "bedrock" rfl⟩

/-- C8 counterexample: the claim says constructing one processor instance with
custom entries does not change the registry observed by any other instance. On
the code, AssistantProcessor.__init__ of src/test_lib.py updates the shared
class-level dict in place: before the construction the key myprov is absent,
after constructing one instance with that custom entry the shared registry
contains it. -/
theorem registry_changed_by_custom_processors :
    List.lookup "myprov" assistant_processor_implementations = none
  ∧ List.lookup "myprov"
      (assistantProcessorInit { registry := assistant_processor_implementations }
        "openai" [("myprov", ImplTag.customImpl 0)]).1.registry
      = some (ImplTag.customImpl 0) :=
  ⟨rfl, rfl⟩

/-- C8 amended: the test_lib registry is shared mutable state: a custom entry
supplied to one construction is written into the class-level registry and is
observed by every later construction, so the registry is not read-only after
construction. -/
theorem custom_processor_entry_shared :
    ∀ (st : TestLibState) (provider k : String) (v : ImplTag),
      List.lookup k (assistantProcessorInit st provider [(k, v)]).1.registry = some v
    ∧ (assistantProcessorInit (assistantProcessorInit st provider [(k, v)]).1 k []).2
        = Except.ok v := by
  intro st provider k v
  have hlook : List.lookup k ((k, v) :: st.registry) = some v := by
    simp [List.lookup]
  refine ⟨hlook, ?_⟩
  show (match List.lookup k ((k, v) :: st.registry) with
        | some t => Except.ok t
        | none => Except.error ("KeyError: " ++ k)) = Except.ok v
  rw [hlook]

/-- C9: when the remote list call succeeds on a thread with zero messages,
get_thread_messages returns None, the same value it returns for every failed
listing, so an empty thread is indistinguishable from a failure at this
interface. -/
theorem get_thread_messages_empty_is_none :
    get_thread_messages (Except.ok []) = none
  ∧ ∀ e : String, get_thread_messages (Except.error e) = none :=
  ⟨rfl, fun _ => rfl⟩

/-- C10: when the remote message creation succeeds, create_message returns the
created message whatever the subsequent run does; the result of start_run is
discarded, so the returned message is identical across arbitrary run inputs. -/
theorem create_message_ignores_run_result :
    ∀ (m : Message) (registry registry2 : FunctionRegistry) (tid tid2 : String)
      (run run2 : RunState) (polls polls2 : List RunState),
      create_message (Except.ok m) registry tid run polls = some m
    ∧ create_message (Except.ok m) registry tid run polls
        = create_message (Except.ok m) registry2 tid2 run2 polls2 := by
  intro m registry registry2 tid tid2 run run2 polls polls2
  exact ⟨rfl, rfl⟩

end Adapter
